import Mathlib

/-
  Verification of the LCD8574 driver (lcd8574.c): a shallow embedding of the
  HD44780-over-PCF8574 bit-banging protocol layer.

  The driver is modelled as pure functions that return the trace of events
  they perform on the I2C channel: byte writes, microsecond delays, and the
  open/ioctl/close system operations used by init and uninit.  Machine bytes
  are Nat values below 256 with explicit masking; C int arithmetic on
  addresses is Int with an explicit 32-bit two of complement bitwise or.
-/

/-- Observable events performed by the driver on its I2C channel. -/
inductive Ev where
  | write (b : Nat) : Ev
  | delay (us : Nat) : Ev
  | openDev : Ev
  | bindAddr (a : Int) : Ev
  | closeFd (fd : Int) : Ev
deriving DecidableEq, Repr

/-- Pin mapping constant from lcd8574.c: register select output bit. -/
def PIN_RS : Nat := 0
/-- Pin mapping constant from lcd8574.c: read/write output bit. -/
def PIN_RW : Nat := 1
/-- Pin mapping constant from lcd8574.c: clock (enable) output bit. -/
def PIN_E : Nat := 2
/-- Pin mapping constant from lcd8574.c: backlight LED output bit. -/
def PIN_LED : Nat := 3

/-- Command constant CMD_CLEAR from lcd8574.c. -/
def CMD_CLEAR : Nat := 0x01
/-- Command constant CMD_CTRL from lcd8574.c. -/
def CMD_CTRL : Nat := 0x08
/-- Command constant CMD_FUNC from lcd8574.c. -/
def CMD_FUNC : Nat := 0x20
/-- Command mask CMD_SET_DDRAM_ADDR from lcd8574.c (the address is OR-ed
    into the bottom 7 bits). -/
def CMD_SET_DDRAM_ADDR : Int := 0x80
/-- Function register flag LCD_FUNC_N (more than one display line). -/
def LCD_FUNC_N : Nat := 0x08
/-- Function register flag LCD_FUNC_DL (data length, set for 8-bit mode). -/
def LCD_FUNC_DL : Nat := 0x10
/-- Addresses occupied by one display row, LCD_CHARS_PER_ROW in lcd8574.c. -/
def LCD_CHARS_PER_ROW : Int := 64
/-- Mode flag LCD_MODE_DISPLAY_ON from lcd8574.h. -/
def LCD_MODE_DISPLAY_ON : Nat := 0x04

/-- The number of bytes representable in a C unsigned char, as a mask. -/
def BYTE_MASK : Nat := 255

/-- Embedding of lcd8574_set_bit_value: set or clear one bit of a byte.
    The C clear branch is ret &= ~(1 << bit) on an unsigned char, which for
    bytes below 256 and bits below 8 is masking with 255 XOR (1 <<< bit). -/
def lcd8574_set_bit_value (b : Nat) (bit : Nat) (val : Bool) : Nat :=
  if val then b ||| (1 <<< bit) else b &&& (BYTE_MASK ^^^ (1 <<< bit))

/-- Embedding of lcd8574_send_4_bits: compose the 8-bit expander word from
    the nibble, the LED bit, and the register select bit, then write it with
    the clock bit high, delay 1000 us, write it with the clock bit low, and
    delay 1000 us.  The clock bit is not pre-cleared before the high write
    (that code is commented out in the source). -/
def lcd8574_send_4_bits (rs : Bool) (n : Nat) : List Ev :=
  let b0 := (n <<< 4) &&& 0xF0
  let b1 := if PIN_LED > 0 then lcd8574_set_bit_value b0 PIN_LED true else b0
  let b2 := lcd8574_set_bit_value b1 PIN_RS rs
  let bHigh := lcd8574_set_bit_value b2 PIN_E true
  let bLow := lcd8574_set_bit_value bHigh PIN_E false
  [Ev.write bHigh, Ev.delay 1000, Ev.write bLow, Ev.delay 1000]

/-- Embedding of lcd8574_send_byte: high nibble first, then low nibble. -/
def lcd8574_send_byte (rs : Bool) (n : Nat) : List Ev :=
  lcd8574_send_4_bits rs ((n >>> 4) &&& 0x0F) ++ lcd8574_send_4_bits rs (n &&& 0x0F)

/-- A C int reinterpreted as its 32-bit two of complement bit pattern. -/
def toU32 (a : Int) : Nat := (a % 4294967296).toNat

/-- The 32-bit pattern reinterpreted back as a signed C int. -/
def ofU32 (n : Nat) : Int :=
  if n < 2147483648 then (n : Int) else (n : Int) - 4294967296

/-- Bitwise or of two C ints (32-bit two of complement semantics). -/
def cOr (a b : Int) : Int := ofU32 (toU32 a ||| toU32 b)

/-- Conversion of a C int to a BYTE (unsigned char): reduction mod 256. -/
def toByte (a : Int) : Nat := (a % 256).toNat

/-- Embedding of lcd8574_write_char_at.  The C guard is
    row < rows AND col < cols, with no lower bound check; rows and cols are
    the dimensions stored in the controller at creation. -/
def lcd8574_write_char_at (rows cols row col : Int) (c : Nat) : List Ev :=
  if row < rows ∧ col < cols then
    let addr := row * LCD_CHARS_PER_ROW + col
    lcd8574_send_byte false (toByte (cOr CMD_SET_DDRAM_ADDR addr)) ++
    lcd8574_send_byte true c
  else []

/-- The while loop of lcd8574_write_string_at.  The list models the bytes of
    the C string before its NUL terminator; the loop also stops at an
    embedded zero byte, mirroring the *s test.  After sending a byte the
    column is incremented; if it reaches cols and wrap is set, the row is
    advanced, the column reset, and a fresh set-address command emitted. -/
def lcd8574_write_loop (rows cols : Int) (wrap : Bool) : Int → Int → List Nat → List Ev
  | _, _, [] => []
  | row, col, c :: rest =>
    if c ≠ 0 ∧ row < rows ∧ col < cols then
      lcd8574_send_byte true c ++
      (if cols ≤ col + 1 ∧ wrap then
        lcd8574_send_byte false
          (toByte (cOr CMD_SET_DDRAM_ADDR ((row + 1) * LCD_CHARS_PER_ROW + 0))) ++
        lcd8574_write_loop rows cols wrap (row + 1) 0 rest
      else
        lcd8574_write_loop rows cols wrap row (col + 1) rest)
    else []

/-- Embedding of lcd8574_write_string_at: guard, initial set-address
    command, then the character loop. -/
def lcd8574_write_string_at (rows cols row col : Int) (s : List Nat) (wrap : Bool) :
    List Ev :=
  if row < rows ∧ col < cols then
    lcd8574_send_byte false
      (toByte (cOr CMD_SET_DDRAM_ADDR (row * LCD_CHARS_PER_ROW + col))) ++
    lcd8574_write_loop rows cols wrap row col s
  else []

/-- Embedding of lcd8574_clear. -/
def lcd8574_clear : List Ev := lcd8574_send_byte false CMD_CLEAR

/-- Embedding of lcd8574_set_mode. -/
def lcd8574_set_mode (mode : Nat) : List Ev := lcd8574_send_byte false (CMD_CTRL ||| mode)

/-- Embedding of lcd8574_set_cursor: a string write of the C literal
    string containing a single NUL, whose content before the terminator is
    empty, with wrap set. -/
def lcd8574_set_cursor (rows cols row col : Int) : List Ev :=
  lcd8574_write_string_at rows cols row col [] true

/-- The byte writes appearing in a trace, in order. -/
def writesOf (t : List Ev) : List Nat :=
  t.filterMap fun e => match e with
    | Ev.write b => some b
    | _ => none

/-- Embedding of struct _LCD8574: the controller state. -/
structure LCD8574 where
  i2c_addr : Int
  fd : Int
  rows : Int
  cols : Int
  ready : Bool
deriving DecidableEq, Repr

/-- Embedding of lcd8574_create: records configuration, fd is -1, not
    ready.  Never fails and performs no I/O. -/
def lcd8574_create (i2c_addr rows cols : Int) : LCD8574 :=
  { i2c_addr := i2c_addr, fd := -1, rows := rows, cols := cols, ready := false }

/-- Result of lcd8574_init: the updated controller, the trace of events,
    the BOOL return value, and the error message written through the
    error out-parameter (none on success). -/
structure InitOutcome where
  state : LCD8574
  trace : List Ev
  ok : Bool
  error : Option String
deriving DecidableEq, Repr

/-- The channel events of a successful initialization after open and ioctl:
    reset byte and settling delay, the 8-bit-mode nibble three times with
    35 ms delays, the 4-bit-mode nibble with a 35 ms delay, the function-set
    byte with the multi-line flag, the clear command, and display-on. -/
def initSetupTrace : List Ev :=
  [Ev.write 0, Ev.delay 35000] ++
  lcd8574_send_4_bits false ((CMD_FUNC ||| LCD_FUNC_DL) >>> 4) ++ [Ev.delay 35000] ++
  lcd8574_send_4_bits false ((CMD_FUNC ||| LCD_FUNC_DL) >>> 4) ++ [Ev.delay 35000] ++
  lcd8574_send_4_bits false ((CMD_FUNC ||| LCD_FUNC_DL) >>> 4) ++ [Ev.delay 35000] ++
  lcd8574_send_4_bits false (CMD_FUNC >>> 4) ++ [Ev.delay 35000] ++
  lcd8574_send_byte false (CMD_FUNC ||| LCD_FUNC_N) ++
  lcd8574_clear ++
  lcd8574_set_mode LCD_MODE_DISPLAY_ON

/-- Embedding of lcd8574_init.  The environment is abstracted by the two
    OS results: openResult is the fd returned by open (negative on failure)
    and ioctlResult the return of the I2C_SLAVE ioctl (negative on
    failure); osErr is the strerror text of the failing call.  As in the C,
    the fd field receives the open result unconditionally, ready is set
    only on full success, and a failed ioctl neither closes the fd nor
    performs any channel write. -/
def lcd8574_init (s : LCD8574) (openResult ioctlResult : Int) (osErr : String) :
    InitOutcome :=
  let s1 := { s with fd := openResult }
  if 0 ≤ openResult then
    if 0 ≤ ioctlResult then
      { state := { s1 with ready := true },
        trace := Ev.openDev :: Ev.bindAddr s.i2c_addr :: initSetupTrace,
        ok := true, error := none }
    else
      { state := s1, trace := [Ev.openDev, Ev.bindAddr s.i2c_addr],
        ok := false,
        error := some ("Can\x27t intialize I2C device: " ++ osErr) }
  else
    { state := s1, trace := [Ev.openDev], ok := false,
      error := some ("Can\x27t open I2C device: " ++ osErr) }

/-- Embedding of lcd8574_uninit: closes the fd if it is nonnegative and
    clears ready.  The fd field itself is not changed by the C code. -/
def lcd8574_uninit (s : LCD8574) : LCD8574 × List Ev :=
  if 0 ≤ s.fd then ({ s with ready := false }, [Ev.closeFd s.fd])
  else ({ s with ready := false }, [])

/-- Controller states reachable through the public operations used per the
    documented lifecycle: create, init on a controller that is not ready
    (with any OS outcome), and uninit.  The write operations do not change
    the state, and destroy frees the state after an uninit. -/
inductive Reachable : LCD8574 → Prop where
  | created (a r c : Int) : Reachable (lcd8574_create a r c)
  | inited (s : LCD8574) (openResult ioctlResult : Int) (osErr : String) :
      Reachable s → s.ready = false →
      Reachable (lcd8574_init s openResult ioctlResult osErr).state
  | uninited (s : LCD8574) : Reachable s → Reachable (lcd8574_uninit s).1

/-- Byte layout of a nibble transaction as the code wires it, stated from
    the pin constants: data nibble in bits 7 to 4, the LED bit at bit 3 set
    unconditionally, the clock bit E at bit 2, RW at bit 1 always clear,
    and the register select bit RS at bit 0. -/
def nibbleLayoutWired (rs : Bool) (n : Nat) (e : Bool) : Nat :=
  ((n <<< 4) &&& 0xF0) ||| (1 <<< PIN_LED) |||
    (cond e (1 <<< PIN_E) 0) ||| (cond rs (1 <<< PIN_RS) 0)

/-- Byte layout asserted by the specification sentence: LED at bit 3, RS
    at bit 2, RW at bit 1, E at bit 0.  Stated from the words of the spec
    for comparison with the code. -/
def nibbleLayoutClaimed (rs : Bool) (n : Nat) (e : Bool) : Nat :=
  ((n <<< 4) &&& 0xF0) ||| (1 <<< 3) |||
    (cond rs (1 <<< 2) 0) ||| (cond e (1 <<< 0) 0)

/-- The bytes of the string 12:34:56 used by the test driver. -/
def timeDigits : List Nat := [49, 50, 58, 51, 52, 58, 53, 54]

/-- Once the column has reached the column bound, the string loop emits
    nothing, whatever characters remain. -/
theorem write_loop_past_end (rows cols : Int) (wrap : Bool) (row col : Int)
    (s : List Nat) (h : cols ≤ col) :
    lcd8574_write_loop rows cols wrap row col s = [] := by
  cases s with
  | nil => rfl
  | cons c rest =>
    have hng : ¬(c ≠ 0 ∧ row < rows ∧ col < cols) := by
      rintro ⟨-, -, hlt⟩
      omega
    rw [lcd8574_write_loop, if_neg hng]

/-- Behaviour of the string loop on a block of nonzero characters that
    exactly fills the current row: every character of the block is sent as
    a data byte, and then, with wrap set, a set-address command for the
    start of the next row is emitted before the loop continues on the rest
    of the string; without wrap the loop emits nothing further. -/
theorem write_loop_fill_row (rows cols : Int) (wrap : Bool) :
    ∀ (s1 rest : List Nat) (row col : Int),
      (∀ c ∈ s1, c ≠ 0) → row < rows → col < cols → col + s1.length = cols →
      lcd8574_write_loop rows cols wrap row col (s1 ++ rest) =
        s1.flatMap (lcd8574_send_byte true) ++
        (if wrap then
          lcd8574_send_byte false
            (toByte (cOr CMD_SET_DDRAM_ADDR ((row + 1) * LCD_CHARS_PER_ROW + 0))) ++
          lcd8574_write_loop rows cols wrap (row + 1) 0 rest
        else []) := by
  intro s1
  induction s1 with
  | nil =>
    intro rest row col _ _ hcol hlen
    simp only [List.length_nil] at hlen
    omega
  | cons c s2 ih =>
    intro rest row col hnz hrow hcol hlen
    have hc : c ≠ 0 := hnz c (by simp)
    cases s2 with
    | nil =>
      have hcol1 : cols ≤ col + 1 := by
        simp only [List.length_cons, List.length_nil] at hlen
        omega
      rw [List.cons_append, List.nil_append, lcd8574_write_loop,
        if_pos ⟨hc, hrow, hcol⟩]
      cases wrap with
      | true =>
        rw [if_pos ⟨hcol1, rfl⟩]
        simp
      | false =>
        rw [if_neg (by rintro ⟨-, h⟩; exact Bool.false_ne_true h),
          write_loop_past_end _ _ _ _ _ rest (by omega)]
        simp
    | cons c2 s3 =>
      have hcol1 : ¬ cols ≤ col + 1 := by
        simp only [List.length_cons] at hlen
        omega
      rw [List.cons_append, lcd8574_write_loop, if_pos ⟨hc, hrow, hcol⟩,
        if_neg (by rintro ⟨h, -⟩; exact hcol1 h)]
      rw [ih rest row (col + 1) (fun d hd => hnz d (by simp [hd]))
        hrow (by simp only [List.length_cons] at hlen; omega)
        (by simp only [List.length_cons] at hlen ⊢; omega)]
      simp

/-- C1 (amended): every nibble transaction serializes the byte
    [D7 D6 D5 D4 | LED | E | RW | RS]: data nibble in bits 7 to 4, LED at
    bit 3 set unconditionally, the clock bit E at bit 2, RW at bit 1
    (always 0), and the register select bit at bit 0.  The byte is written
    exactly twice, first with E high and then with E low, each write
    followed by a 1000 us delay, and no write with E pre-cleared precedes
    the E-high write. -/
theorem c1_nibble_transaction (rs : Bool) (n : Nat) (h : n < 16) :
    lcd8574_send_4_bits rs n =
      [Ev.write (nibbleLayoutWired rs n true), Ev.delay 1000,
       Ev.write (nibbleLayoutWired rs n false), Ev.delay 1000] := by
  interval_cases n <;> cases rs <;> decide

/-- Witness for c1_nibble_transaction at a data nibble. -/
theorem c1_nibble_transaction_witness :
    lcd8574_send_4_bits true 7 =
      [Ev.write (nibbleLayoutWired true 7 true), Ev.delay 1000,
       Ev.write (nibbleLayoutWired true 7 false), Ev.delay 1000] :=
  c1_nibble_transaction true 7 (by decide)

/-- C1 (counterexample): the byte layout asserted by the claim, with RS at
    bit 2 and E at bit 0, does not match the serialized bytes: for a data
    transaction of nibble 0 the code writes 13 then 9, while the claimed
    layout gives 13 then 12. -/
theorem c1_counterexample :
    lcd8574_send_4_bits true 0 ≠
      [Ev.write (nibbleLayoutClaimed true 0 true), Ev.delay 1000,
       Ev.write (nibbleLayoutClaimed true 0 false), Ev.delay 1000] := by
  decide

/-- C2: on a ready 2 x 16 controller, writing 12:34:56 at the origin
    without wrap serializes one set-address command byte followed by the
    eight data bytes, each as two nibble transactions of two channel
    writes, 36 channel byte writes in total, with the exact bytes listed. -/
theorem c2_write_time_string :
    lcd8574_write_string_at 2 16 0 0 timeDigits false =
      lcd8574_send_byte false 128 ++
        timeDigits.flatMap (lcd8574_send_byte true) ∧
    (writesOf (lcd8574_write_string_at 2 16 0 0 timeDigits false)).length = 36 ∧
    writesOf (lcd8574_write_string_at 2 16 0 0 timeDigits false) =
      [140, 136, 12, 8, 61, 57, 29, 25, 61, 57, 45, 41, 61, 57, 173, 169,
       61, 57, 61, 57, 61, 57, 77, 73, 61, 57, 173, 169, 61, 57, 93, 89,
       61, 57, 109, 105] := by
  decide

/-- C3 (amended): set_cursor is definitionally the wrap string write of
    the string whose content before the terminator is empty, and for
    coordinates inside the upper bounds its whole trace is the set-address
    command for row * 64 + col: no data byte is emitted, because the loop
    stops at the terminator before sending anything. -/
theorem c3_set_cursor_address_only (rows cols row col : Int)
    (h1 : row < rows) (h2 : col < cols) :
    lcd8574_set_cursor rows cols row col =
      lcd8574_write_string_at rows cols row col [] true ∧
    lcd8574_set_cursor rows cols row col =
      lcd8574_send_byte false
        (toByte (cOr CMD_SET_DDRAM_ADDR (row * LCD_CHARS_PER_ROW + col))) := by
  refine ⟨rfl, ?_⟩
  unfold lcd8574_set_cursor lcd8574_write_string_at
  rw [if_pos ⟨h1, h2⟩]
  simp [lcd8574_write_loop]

/-- Witness for c3_set_cursor_address_only. -/
theorem c3_set_cursor_address_only_witness :
    lcd8574_set_cursor 2 16 1 3 =
      lcd8574_write_string_at 2 16 1 3 [] true ∧
    lcd8574_set_cursor 2 16 1 3 =
      lcd8574_send_byte false
        (toByte (cOr CMD_SET_DDRAM_ADDR (1 * LCD_CHARS_PER_ROW + 3))) :=
  c3_set_cursor_address_only 2 16 1 3 (by decide) (by decide)

/-- C3 (counterexample): at row 0, col 0 on a 2 x 16 controller the trace
    of set_cursor is the address command alone, not the address command
    followed by a data byte of value 0 as the claim asserts. -/
theorem c3_counterexample :
    lcd8574_set_cursor 2 16 0 0 ≠
      lcd8574_send_byte false 128 ++ lcd8574_send_byte true 0 ∧
    lcd8574_set_cursor 2 16 0 0 = lcd8574_send_byte false 128 := by
  decide

/-- C5 (amended): whenever row is at least rows or col is at least cols,
    write_char_at and write_string_at emit no channel event at all;
    negative coordinates are not rejected by the code. -/
theorem c5_out_of_bounds_noop (rows cols row col : Int) (c : Nat)
    (s : List Nat) (wrap : Bool) (h : rows ≤ row ∨ cols ≤ col) :
    lcd8574_write_char_at rows cols row col c = [] ∧
    lcd8574_write_string_at rows cols row col s wrap = [] := by
  have hng : ¬(row < rows ∧ col < cols) := by
    rintro ⟨h1, h2⟩
    rcases h with h | h <;> omega
  constructor
  · unfold lcd8574_write_char_at
    rw [if_neg hng]
  · unfold lcd8574_write_string_at
    rw [if_neg hng]

/-- Witness for c5_out_of_bounds_noop. -/
theorem c5_out_of_bounds_noop_witness :
    lcd8574_write_char_at 2 16 2 0 65 = [] ∧
    lcd8574_write_string_at 2 16 2 0 [65] true = [] :=
  c5_out_of_bounds_noop 2 16 2 0 65 [65] true (by decide)

/-- C5 (counterexample): with rows 2 and cols 16, the calls at row -1 and
    col 0 are not no-ops, because the guard checks only the upper bounds:
    the address command for address -64, truncated to byte 192, and the
    character are serialized. -/
theorem c5_counterexample :
    lcd8574_write_char_at 2 16 (-1) 0 65 ≠ [] ∧
    lcd8574_write_string_at 2 16 (-1) 0 [65] true ≠ [] ∧
    writesOf (lcd8574_write_char_at 2 16 (-1) 0 65) =
      [204, 200, 12, 8, 77, 73, 29, 25] := by
  decide

/-- The head of any origin write on the 2 x 16 controller: the guard holds
    and the initial set-address command is the byte 128. -/
theorem write_string_at_origin (s : List Nat) (w : Bool) :
    lcd8574_write_string_at 2 16 0 0 s w =
      lcd8574_send_byte false 128 ++ lcd8574_write_loop 2 16 w 0 0 s := by
  unfold lcd8574_write_string_at
  rw [if_pos (by constructor <;> norm_num),
    (by decide : toByte (cOr CMD_SET_DDRAM_ADDR ((0:Int) * LCD_CHARS_PER_ROW + 0)) = 128)]

/-- A single character sent strictly inside the row: one data byte, no
    address command, and the loop ends. -/
theorem write_loop_single (rows cols row col : Int) (a : Nat)
    (ha : a ≠ 0) (hrow : row < rows) (hcol : col < cols) (h1 : ¬ cols ≤ col + 1) :
    lcd8574_write_loop rows cols true row col [a] = lcd8574_send_byte true a := by
  rw [lcd8574_write_loop, if_pos ⟨ha, hrow, hcol⟩,
    if_neg (by rintro ⟨h, -⟩; exact h1 h)]
  simp [lcd8574_write_loop]

/-- C4: on the 2 x 16 controller a wrap write at the origin of a string of
    17 nonzero bytes issues exactly two set-address commands, the byte 128
    for address 0 at the start and the byte 192 for address 64 at the row
    transition, and the final character is sent as the data byte right
    after that second command, at row 1 column 0; without wrap, a string
    that fills the row is truncated there: the bytes after the first 16
    produce no channel event. -/
theorem c4_wrap_and_truncate (s1 rest : List Nat) (a : Nat)
    (h1 : s1.length = 16) (h2 : ∀ c ∈ s1, c ≠ 0) (h3 : a ≠ 0) :
    lcd8574_write_string_at 2 16 0 0 (s1 ++ [a]) true =
      lcd8574_send_byte false 128 ++ s1.flatMap (lcd8574_send_byte true) ++
      lcd8574_send_byte false 192 ++ lcd8574_send_byte true a ∧
    lcd8574_write_string_at 2 16 0 0 (s1 ++ rest) false =
      lcd8574_send_byte false 128 ++ s1.flatMap (lcd8574_send_byte true) := by
  constructor
  · rw [write_string_at_origin,
      write_loop_fill_row 2 16 true s1 [a] 0 0 h2 (by norm_num) (by norm_num)
        (by omega),
      if_pos rfl,
      (by decide :
        toByte (cOr CMD_SET_DDRAM_ADDR (((0:Int) + 1) * LCD_CHARS_PER_ROW + 0)) = 192),
      write_loop_single 2 16 (0 + 1) 0 a h3 (by norm_num) (by norm_num) (by norm_num)]
    simp [List.append_assoc]
  · rw [write_string_at_origin,
      write_loop_fill_row 2 16 false s1 rest 0 0 h2 (by norm_num) (by norm_num)
        (by omega)]
    simp

/-- Witness for c4_wrap_and_truncate on the string of sixteen letters A
    followed by one letter C, and on sixteen letters A followed by B. -/
theorem c4_wrap_and_truncate_witness :
    lcd8574_write_string_at 2 16 0 0 (List.replicate 16 65 ++ [67]) true =
      lcd8574_send_byte false 128 ++
        (List.replicate 16 65).flatMap (lcd8574_send_byte true) ++
      lcd8574_send_byte false 192 ++ lcd8574_send_byte true 67 ∧
    lcd8574_write_string_at 2 16 0 0 (List.replicate 16 65 ++ [66]) false =
      lcd8574_send_byte false 128 ++
        (List.replicate 16 65).flatMap (lcd8574_send_byte true) :=
  c4_wrap_and_truncate (List.replicate 16 65) [66] 67 (by decide) (by decide)
    (by decide)

/-- C10: with wrap set, the moment a sent character makes the column reach
    the bound the loop emits the set-address command for the next row, at
    address (row + 1) * 64, even when that character is the last of the
    string and even when the next row equals the row bound; in particular a
    string of exactly 32 nonzero bytes written at the origin of the 2 x 16
    controller ends with a trailing set-address command computed from row
    index 2, address 128, serialized as the byte 128. -/
theorem c10_trailing_address (rows cols row col : Int) (c : Nat)
    (s1 s2 : List Nat) (hc : c ≠ 0) (hrow : row < rows) (hcol : col < cols)
    (hlast : cols ≤ col + 1) (h1 : s1.length = 16) (h2 : ∀ d ∈ s1, d ≠ 0)
    (h3 : s2.length = 16) (h4 : ∀ d ∈ s2, d ≠ 0) :
    lcd8574_write_loop rows cols true row col [c] =
      lcd8574_send_byte true c ++
      lcd8574_send_byte false
        (toByte (cOr CMD_SET_DDRAM_ADDR ((row + 1) * LCD_CHARS_PER_ROW + 0))) ∧
    lcd8574_write_string_at 2 16 0 0 (s1 ++ s2) true =
      lcd8574_send_byte false 128 ++ s1.flatMap (lcd8574_send_byte true) ++
      lcd8574_send_byte false 192 ++ s2.flatMap (lcd8574_send_byte true) ++
      lcd8574_send_byte false 128 := by
  constructor
  · have h := write_loop_fill_row rows cols true [c] [] row col
      (by intro d hd; simp at hd; subst hd; exact hc) hrow hcol
      (by simp only [List.length_cons, List.length_nil]; omega)
    simp only [List.cons_append, List.nil_append] at h
    rw [h]
    simp [lcd8574_write_loop]
  · rw [write_string_at_origin,
      write_loop_fill_row 2 16 true s1 s2 0 0 h2 (by norm_num) (by norm_num)
        (by omega),
      if_pos rfl,
      (by decide :
        toByte (cOr CMD_SET_DDRAM_ADDR (((0:Int) + 1) * LCD_CHARS_PER_ROW + 0)) = 192)]
    have h := write_loop_fill_row 2 16 true s2 [] (0 + 1) 0 h4 (by norm_num)
      (by norm_num) (by omega)
    rw [List.append_nil] at h
    rw [h, if_pos rfl,
      (by decide :
        toByte (cOr CMD_SET_DDRAM_ADDR (((0:Int) + 1 + 1) * LCD_CHARS_PER_ROW + 0)) = 128)]
    simp [lcd8574_write_loop, List.append_assoc]

/-- Witness for c10_trailing_address at the last cell of row 0 and on a
    32 byte string of letters. -/
theorem c10_trailing_address_witness :
    lcd8574_write_loop 2 16 true 0 15 [65] =
      lcd8574_send_byte true 65 ++
      lcd8574_send_byte false
        (toByte (cOr CMD_SET_DDRAM_ADDR (((0:Int) + 1) * LCD_CHARS_PER_ROW + 0))) ∧
    lcd8574_write_string_at 2 16 0 0 (List.replicate 16 65 ++ List.replicate 16 66) true =
      lcd8574_send_byte false 128 ++
        (List.replicate 16 65).flatMap (lcd8574_send_byte true) ++
      lcd8574_send_byte false 192 ++
        (List.replicate 16 66).flatMap (lcd8574_send_byte true) ++
      lcd8574_send_byte false 128 :=
  c10_trailing_address 2 16 0 15 65 (List.replicate 16 65) (List.replicate 16 66)
    (by decide) (by decide) (by decide) (by decide) (by decide) (by decide)
    (by decide) (by decide)

/-- C6: a successful initialization, in order: open, bind address, a zero
    byte to all expander outputs followed by a 35000 us delay, the
    8-bit-mode nibble 0x3 three times as command transactions (bytes 60
    and 56) each followed by a 35000 us delay, the 4-bit-mode nibble 0x2
    once (bytes 44 and 40) with a 35000 us delay, the function-set byte
    0x28 as two nibble transactions (bytes 44, 40, 140, 136), the clear
    command (bytes 12, 8, 28, 24), the display-on command via set_mode
    (bytes 12, 8, 204, 200), and the resulting state is ready. -/
theorem c6_init_success (s : LCD8574) (openResult ioctlResult : Int)
    (osErr : String) (h1 : 0 ≤ openResult) (h2 : 0 ≤ ioctlResult) :
    lcd8574_init s openResult ioctlResult osErr =
      { state := { s with fd := openResult, ready := true },
        trace := [Ev.openDev, Ev.bindAddr s.i2c_addr,
          Ev.write 0, Ev.delay 35000,
          Ev.write 60, Ev.delay 1000, Ev.write 56, Ev.delay 1000, Ev.delay 35000,
          Ev.write 60, Ev.delay 1000, Ev.write 56, Ev.delay 1000, Ev.delay 35000,
          Ev.write 60, Ev.delay 1000, Ev.write 56, Ev.delay 1000, Ev.delay 35000,
          Ev.write 44, Ev.delay 1000, Ev.write 40, Ev.delay 1000, Ev.delay 35000,
          Ev.write 44, Ev.delay 1000, Ev.write 40, Ev.delay 1000,
          Ev.write 140, Ev.delay 1000, Ev.write 136, Ev.delay 1000,
          Ev.write 12, Ev.delay 1000, Ev.write 8, Ev.delay 1000,
          Ev.write 28, Ev.delay 1000, Ev.write 24, Ev.delay 1000,
          Ev.write 12, Ev.delay 1000, Ev.write 8, Ev.delay 1000,
          Ev.write 204, Ev.delay 1000, Ev.write 200, Ev.delay 1000],
        ok := true, error := none } := by
  unfold lcd8574_init
  simp only [if_pos h1, if_pos h2]
  rfl

/-- Witness for c6_init_success: a concrete successful run is ready, ok,
    and performs 21 channel byte writes. -/
theorem c6_init_success_witness :
    (lcd8574_init (lcd8574_create 39 2 16) 3 0 "x").ok = true ∧
    (lcd8574_init (lcd8574_create 39 2 16) 3 0 "x").state.ready = true ∧
    (writesOf (lcd8574_init (lcd8574_create 39 2 16) 3 0 "x").trace).length = 21 := by
  rw [c6_init_success (lcd8574_create 39 2 16) 3 0 "x" (by decide) (by decide)]
  decide

/-- C7: when open succeeds but the bind-address ioctl fails, init returns
    failure, the ready flag of an unready controller stays false, the
    error message is the addressing message followed by the OS error text,
    and no channel byte is written: the trace holds only the open and the
    failed bind, none of the protocol steps. -/
theorem c7_init_bind_failure (s : LCD8574) (openResult ioctlResult : Int)
    (osErr : String) (h0 : s.ready = false) (h1 : 0 ≤ openResult)
    (h2 : ioctlResult < 0) :
    (lcd8574_init s openResult ioctlResult osErr).ok = false ∧
    (lcd8574_init s openResult ioctlResult osErr).state.ready = false ∧
    (lcd8574_init s openResult ioctlResult osErr).error =
      some ("Can\x27t intialize I2C device: " ++ osErr) ∧
    writesOf (lcd8574_init s openResult ioctlResult osErr).trace = [] ∧
    (lcd8574_init s openResult ioctlResult osErr).trace =
      [Ev.openDev, Ev.bindAddr s.i2c_addr] := by
  have hn : ¬ (0:Int) ≤ ioctlResult := by omega
  unfold lcd8574_init
  simp only [if_pos h1, if_neg hn]
  simp [h0, writesOf]

/-- Witness for c7_init_bind_failure on a created controller. -/
theorem c7_init_bind_failure_witness :
    (lcd8574_init (lcd8574_create 39 2 16) 3 (-1) "xyz").ok = false ∧
    (lcd8574_init (lcd8574_create 39 2 16) 3 (-1) "xyz").state.ready = false ∧
    (lcd8574_init (lcd8574_create 39 2 16) 3 (-1) "xyz").error =
      some ("Can\x27t intialize I2C device: " ++ "xyz") ∧
    writesOf (lcd8574_init (lcd8574_create 39 2 16) 3 (-1) "xyz").trace = [] ∧
    (lcd8574_init (lcd8574_create 39 2 16) 3 (-1) "xyz").trace =
      [Ev.openDev, Ev.bindAddr (lcd8574_create 39 2 16).i2c_addr] :=
  c7_init_bind_failure (lcd8574_create 39 2 16) 3 (-1) "xyz" rfl (by decide)
    (by decide)

/-- C8 (code evaluation at the failing input): after a successful init with
    fd 3, the first uninit closes fd 3, and a second uninit closes fd 3
    again, because the fd field is never reset to -1; the ready flag is
    false after each call and no failure is reported.  This contradicts the
    claimed absence of a double close. -/
theorem c8_double_close_eval :
    (lcd8574_uninit (lcd8574_init (lcd8574_create 39 2 16) 3 0 "").state).2 =
      [Ev.closeFd 3] ∧
    (lcd8574_uninit
      (lcd8574_uninit (lcd8574_init (lcd8574_create 39 2 16) 3 0 "").state).1).2 =
      [Ev.closeFd 3] ∧
    (lcd8574_uninit
      (lcd8574_uninit (lcd8574_init (lcd8574_create 39 2 16) 3 0 "").state).1).1.ready
      = false ∧
    (lcd8574_uninit (lcd8574_create 39 2 16)).2 = [] := by
  decide

/-- C9 (counterexample): the state reached by create followed by an init
    that fails at the bind-address ioctl keeps its open fd 3 while ready is
    false, so the claimed equivalence between a nonnegative fd and ready
    fails on a reachable state. -/
theorem c9_counterexample :
    ¬ (∀ s : LCD8574, Reachable s → (0 ≤ s.fd ↔ s.ready = true)) := by
  intro hall
  have hr : Reachable (lcd8574_init (lcd8574_create 39 2 16) 3 (-1) "E").state :=
    Reachable.inited _ 3 (-1) "E" (Reachable.created 39 2 16) rfl
  have h := (hall _ hr).mp (by decide)
  exact absurd h (by decide)

/-- C9 (amended): over all states reachable by create, init on an unready
    controller, and uninit, the ready flag implies a nonnegative fd; the
    converse direction is false, as the counterexample shows. -/
theorem c9_ready_implies_fd (s : LCD8574) (h : Reachable s) :
    s.ready = true → 0 ≤ s.fd := by
  induction h with
  | created a r c =>
    intro hr
    simp [lcd8574_create] at hr
  | inited s o i e hreach hnr ih =>
    intro hr
    by_cases h1 : 0 ≤ o
    · by_cases h2 : 0 ≤ i
      · simpa [lcd8574_init, if_pos h1, if_pos h2] using h1
      · rw [lcd8574_init] at hr
        simp only [if_pos h1, if_neg h2] at hr
        exact absurd hr (by simp [hnr])
    · rw [lcd8574_init] at hr
      simp only [if_neg h1] at hr
      exact absurd hr (by simp [hnr])
  | uninited s hreach ih =>
    intro hr
    by_cases hf : 0 ≤ s.fd <;> simp [lcd8574_uninit, hf] at hr

/-- Witness for c9_ready_implies_fd at the state after a successful init. -/
theorem c9_ready_implies_fd_witness :
    0 ≤ (lcd8574_init (lcd8574_create 39 2 16) 3 0 "").state.fd :=
  c9_ready_implies_fd (lcd8574_init (lcd8574_create 39 2 16) 3 0 "").state
    (Reachable.inited _ 3 0 "" (Reachable.created 39 2 16) rfl) (by decide)
